import Mathlib

/-!
# watchdog-timer-module-id.c

A verification development for the generated module-registration unit
`watchdog-timer-module-id.c`.  C character arrays are lists of characters
(without the terminating NUL), adjacent string literals are concatenated as
the C translator does, and the macros that come from headers outside this
file (`SIM_VERSION_COMPAT`, `SIM_VERSION`, the `SIMICS_*_API` build flags)
are parameters.
-/

namespace WatchdogModuleId

/-! ## Preprocessor section -/

/-- The `#if defined(SIMICS_7_API) ... #elif defined(SIMICS_6_API) ... #else`
chain selecting `BUILD_API`.  The two arguments say whether the flag is
defined. -/
def BUILD_API (SIMICS_7_API SIMICS_6_API : Bool) : List Char :=
  if SIMICS_7_API then "7".toList
  else if SIMICS_6_API then "6".toList
  else "?".toList

/-- The text of `#define EXTRA "..."`. -/
def EXTRA : List Char := "                                           ".toList

/-- The decimal literal after `"BUILDDATE:"` in the capabilities string. -/
def BUILDDATE : List Char := "1761377933".toList

/-! ## The two character arrays -/

/-- The string literals that make up `_module_capabilities_`, one list per
source line, each line the concatenation of its adjacent literals.
`compat` and `ver` are the texts produced by
`SYMBOL_TO_STRING(SIM_VERSION_COMPAT)` and `SYMBOL_TO_STRING(SIM_VERSION)`. -/
def capabilityLines (compat ver : List Char) (SIMICS_7_API SIMICS_6_API : Bool) :
    List (List Char) :=
  [ "VER:".toList ++ compat ++ ";".toList,
    "ABI:".toList ++ ver ++ ";".toList,
    "API:".toList ++ BUILD_API SIMICS_7_API SIMICS_6_API ++ ";".toList,
    "BLD:".toList ++ "0".toList ++ ";".toList,
    "BLD_NS:__simics_project__;".toList,
    "BUILDDATE:".toList ++ BUILDDATE ++ ";".toList,
    "MOD:".toList ++ "watchdog-timer".toList ++ ";".toList,
    "CLS:watchdog_timer".toList ++ ";".toList,
    "".toList ++ ";".toList,
    "HOSTTYPE:".toList ++ "linux64".toList ++ ";".toList,
    "THREADSAFE;".toList,
    EXTRA ++ ";".toList ]

/-- The contents of `_module_capabilities_`. -/
def _module_capabilities_ (compat ver : List Char) (SIMICS_7_API SIMICS_6_API : Bool) :
    List Char :=
  (capabilityLines compat ver SIMICS_7_API SIMICS_6_API).flatten

/-- The contents of `_module_date`. -/
def _module_date : List Char := "Sat Oct 25 15:38:53 2025".toList

/-! ## Reading the descriptor: fields and keys -/

/-- Split a text at every occurrence of `sep`; the pieces do not contain
`sep`, and a text that ends with `sep` has an empty last piece. -/
def splitAt (sep : Char) : List Char → List (List Char)
  | [] => [[]]
  | c :: cs =>
    if c = sep then [] :: splitAt sep cs
    else
      match splitAt sep cs with
      | [] => [[c]]
      | p :: ps => (c :: p) :: ps

/-- The `sep`-terminated fields of a text: every piece of the split but the
last one, which is what follows the last `sep`. -/
def terminatedFields (sep : Char) (s : List Char) : List (List Char) :=
  (splitAt sep s).dropLast

/-- Whether a text ends with `sep`. -/
def endsWith (sep : Char) (s : List Char) : Bool :=
  s.getLast? == some sep

/-- Split a field at its first `':'` into key and value; `none` when the
field has no `':'`. -/
def keyValue : List Char → Option (List Char × List Char)
  | [] => none
  | c :: cs =>
    if c = ':' then some ([], cs)
    else (keyValue cs).map fun kv => (c :: kv.1, kv.2)

/-- The key of a field: the text before its first `':'`, the whole field when
there is none. -/
def fieldKey (f : List Char) : List Char :=
  f.takeWhile fun c => c != ':'

/-- The fields of the capability descriptor. -/
def capabilityFields (compat ver : List Char) (SIMICS_7_API SIMICS_6_API : Bool) :
    List (List Char) :=
  terminatedFields ';' (_module_capabilities_ compat ver SIMICS_7_API SIMICS_6_API)

/-- The keys the descriptor is said to carry. -/
def listedKeys : List (List Char) :=
  ["VER".toList, "ABI".toList, "API".toList, "BLD".toList, "BLD_NS".toList,
   "MOD".toList, "CLS".toList, "HOSTTYPE".toList, "THREADSAFE".toList]

/-- The suffixes of a text that start right after a `sep`. -/
def afterSeparators (sep : Char) : List Char → List (List Char)
  | [] => []
  | c :: cs =>
    if c = sep then cs :: afterSeparators sep cs else afterSeparators sep cs

/-- Whether `f` followed by `';'` stands in `s` at a field boundary, that is
at the start of `s` or right after a `';'`. -/
def declaresField (s f : List Char) : Bool :=
  (s :: afterSeparators ';' s).any fun t => (f ++ [';']).isPrefixOf t

/-- What follows the two version fields in `_module_capabilities_`. -/
def capabilityTail (SIMICS_7_API SIMICS_6_API : Bool) : List Char :=
  ((capabilityLines [] [] SIMICS_7_API SIMICS_6_API).drop 2).flatten

/-- The key:value pairs of the descriptor: the fields that contain a `':'`,
split at the first one. -/
def capabilityPairs (compat ver : List Char) (SIMICS_7_API SIMICS_6_API : Bool) :
    List (List Char × List Char) :=
  (capabilityFields compat ver SIMICS_7_API SIMICS_6_API).filterMap keyValue

/-- The fields of the descriptor that are not key:value pairs. -/
def bareFields (compat ver : List Char) (SIMICS_7_API SIMICS_6_API : Bool) :
    List (List Char) :=
  (capabilityFields compat ver SIMICS_7_API SIMICS_6_API).filter
    fun f => (keyValue f).isNone

/-- The API field as a reader finds it: the first field whose key is `API`. -/
def apiField (compat ver : List Char) (SIMICS_7_API SIMICS_6_API : Bool) :
    Option (List Char) :=
  (capabilityFields compat ver SIMICS_7_API SIMICS_6_API).find?
    fun f => fieldKey f == "API".toList

/-! ## The functions of the unit

The state of the loaded module is the contents of the two arrays together
with everything that belongs to the rest of the program (`world`).  The
initializer generated from the device model is external to this file: it is a
parameter acting on `world`, with `none` for a call that does not return to
its caller. -/

/-- The functions called from the code of this file. -/
inductive Fn where
  | _initialize_watchdog_timer_dml
  | init_local
  deriving DecidableEq, Repr

/-- The memory of the loaded module. -/
structure Machine (σ : Type) where
  /-- Contents of `_module_capabilities_`. -/
  capabilities : List Char
  /-- Contents of `_module_date`. -/
  date : List Char
  /-- The state owned by the rest of the program. -/
  world : σ

/-- A machine together with the log of the calls made so far, oldest first. -/
structure Config (σ : Type) where
  machine : Machine σ
  calls : List Fn

/-- The type of a C function of this program returning `α`: it runs on a
configuration and either returns a value and a new configuration, or does not
return (`none`). -/
abbrev Exec (σ α : Type) := StateT (Config σ) Option α

/-- Record that `fn` is called. -/
def enter {σ : Type} (fn : Fn) : Exec σ Unit :=
  modify fun c => { c with calls := c.calls ++ [fn] }

/-- The external `_initialize_watchdog_timer_dml`, with behaviour `ext` on
the state outside this file. -/
def _initialize_watchdog_timer_dml {σ : Type} (ext : σ → Option σ) : Exec σ Unit :=
  fun c =>
    match ext c.machine.world with
    | some w => some ((), { c with machine := { c.machine with world := w } })
    | none => none

/-- The hook `extern void init_local(void) {}`: an empty body. -/
def init_local {σ : Type} : Exec σ Unit :=
  pure ()

/-- The function a name stands for when it is called from this file. -/
def callee {σ : Type} (ext : σ → Option σ) : Fn → Exec σ Unit
  | Fn._initialize_watchdog_timer_dml => _initialize_watchdog_timer_dml ext
  | Fn.init_local => init_local

/-- A call statement `fn();`: the call is recorded as it is made and control
passes to the function called; the statement completes when that function
returns. -/
def call {σ : Type} (ext : σ → Option σ) (fn : Fn) : Exec σ Unit := do
  enter fn
  callee ext fn

/-- The body of `_simics_module_init`, two call statements, for any way
`call` of carrying out a call statement. -/
def simics_module_init_body {M : Type → Type} [Monad M] (call : Fn → M Unit) : M Unit := do
  call Fn._initialize_watchdog_timer_dml
  call Fn.init_local

/-- The function `_simics_module_init`. -/
def _simics_module_init {σ : Type} (ext : σ → Option σ) : Exec σ Unit :=
  simics_module_init_body (call ext)

/-- A run that keeps the configuration also when control does not come back:
the result is `none` together with the configuration in which the run
stopped. -/
abbrev Traced (σ α : Type) := OptionT (StateM (Config σ)) α

/-- A call statement in a traced run. When the function called does not
return, the run stops in the configuration in which the call was made, the
call itself recorded. -/
def callTraced {σ : Type} (ext : σ → Option σ) (fn : Fn) : Traced σ Unit :=
  OptionT.mk fun c =>
    match (call ext fn).run c with
    | some (u, c1) => (some u, c1)
    | none => (none, { c with calls := c.calls ++ [fn] })

/-- The traced run of `_simics_module_init`: whether it returned, and the
configuration reached. -/
def simics_module_init_traced {σ : Type} (ext : σ → Option σ) (c : Config σ) :
    Option Unit × Config σ :=
  ((simics_module_init_body (callTraced ext)).run).run c

/-- An external initializer that never returns to its caller. -/
def neverReturns {σ : Type} : σ → Option σ :=
  fun _ => none

/-- An external initializer that always returns, acting as the state
transformer `f`. -/
def returning {σ : Type} (f : σ → σ) : σ → Option σ :=
  fun w => some (f w)

/-- The functions of this file that other units can call. -/
inductive Entry where
  | _simics_module_init
  | init_local
  deriving DecidableEq, Repr

/-- One call from outside of a function of this file. -/
def Entry.run {σ : Type} (ext : σ → Option σ) : Entry → Exec σ Unit
  | Entry._simics_module_init => WatchdogModuleId._simics_module_init ext
  | Entry.init_local => WatchdogModuleId.init_local

/-- A sequence of calls from outside, one after the other. -/
def runCalls {σ : Type} (ext : σ → Option σ) : List Entry → Exec σ Unit
  | [] => pure ()
  | e :: es => do
    e.run ext
    runCalls ext es

/-- The module as loaded: both arrays hold their initializers. -/
def load {σ : Type} (compat ver : List Char) (SIMICS_7_API SIMICS_6_API : Bool) (w : σ) :
    Config σ :=
  { machine :=
      { capabilities := _module_capabilities_ compat ver SIMICS_7_API SIMICS_6_API
        date := _module_date
        world := w }
    calls := [] }

/-! ## The file-scope declarations

The declarations of the unit in source order, as data: what is declared, with
which storage-class specifier, whether the `EXPORTED` marker stands in front,
and whether the declaration is a definition. -/

/-- Storage-class specifier of a file-scope declaration. -/
inductive Storage where
  | noSpecifier
  | externSpecifier
  | staticSpecifier
  deriving DecidableEq, Repr

/-- Linkage of an identifier. -/
inductive Linkage where
  | external
  | internal
  deriving DecidableEq, Repr

/-- A file-scope declaration. -/
structure Decl where
  name : String
  /-- The `EXPORTED` marker is written in front. -/
  exported : Bool
  storage : Storage
  /-- A function (`true`) or an object (`false`). -/
  isFunction : Bool
  /-- An initializer or a function body is given. -/
  isDefinition : Bool
  /-- For a function definition: the body is empty. -/
  emptyBody : Bool
  deriving DecidableEq, Repr

/-- The declarations of `watchdog-timer-module-id.c`, in source order. -/
def declarations : List Decl :=
  [ { name := "_module_capabilities_", exported := true, storage := Storage.noSpecifier,
      isFunction := false, isDefinition := true, emptyBody := false },
    { name := "_module_date", exported := true, storage := Storage.noSpecifier,
      isFunction := false, isDefinition := true, emptyBody := false },
    { name := "_initialize_watchdog_timer_dml", exported := false, storage := Storage.externSpecifier,
      isFunction := true, isDefinition := false, emptyBody := false },
    { name := "init_local", exported := false, storage := Storage.externSpecifier,
      isFunction := true, isDefinition := true, emptyBody := true },
    { name := "_simics_module_init", exported := true, storage := Storage.noSpecifier,
      isFunction := true, isDefinition := false, emptyBody := false },
    { name := "sim_iface_wrap_init", exported := false, storage := Storage.externSpecifier,
      isFunction := true, isDefinition := false, emptyBody := false },
    { name := "init_local", exported := false, storage := Storage.externSpecifier,
      isFunction := true, isDefinition := false, emptyBody := false },
    { name := "_simics_module_init", exported := false, storage := Storage.noSpecifier,
      isFunction := true, isDefinition := true, emptyBody := false } ]

/-- Linkage of a file-scope identifier in C: internal when its first
declaration is `static`, external otherwise (a later `extern` or plain
declaration takes the linkage of the earlier one, and `const` does not change
the linkage of an object). -/
def linkageOf (ds : List Decl) (n : String) : Linkage :=
  match ds.find? fun d => d.name == n with
  | some d => if d.storage = Storage.staticSpecifier then Linkage.internal else Linkage.external
  | none => Linkage.external

/-- The names declared with the `EXPORTED` marker, each once, in source
order. -/
def exportedSymbols (ds : List Decl) : List String :=
  ((ds.filter fun d => d.exported).map fun d => d.name).eraseDups

/-- The names the unit defines with external linkage, each once, in source
order. -/
def externallyLinkedDefinitions (ds : List Decl) : List String :=
  ((ds.filter fun d => d.isDefinition && linkageOf ds d.name == Linkage.external).map
    fun d => d.name).eraseDups

/-- The names the unit defines with internal linkage. -/
def internalDefinitions (ds : List Decl) : List String :=
  ((ds.filter fun d => d.isDefinition && linkageOf ds d.name == Linkage.internal).map
    fun d => d.name).eraseDups

/-- The functions the unit defines with an empty body. -/
def emptyHooks (ds : List Decl) : List String :=
  ((ds.filter fun d => d.isFunction && d.isDefinition && d.emptyBody).map
    fun d => d.name).eraseDups

/-! ## Calendar arithmetic for the two build stamps -/

/-- Gregorian leap year. -/
def isLeapYear (y : Nat) : Bool :=
  (y % 4 == 0 && y % 100 != 0) || y % 400 == 0

/-- Number of days of a year. -/
def daysInYear (y : Nat) : Nat :=
  if isLeapYear y then 366 else 365

/-- Number of days of month `m` (1 to 12) of year `y`. -/
def daysInMonth (y m : Nat) : Nat :=
  if m = 2 then (if isLeapYear y then 29 else 28)
  else if m = 4 ∨ m = 6 ∨ m = 9 ∨ m = 11 then 30
  else 31

/-- Days from 1970-01-01 to the given civil date (year at least 1970),
counted by adding up whole years, whole months and days. -/
def daysFromCivil (y m d : Nat) : Nat :=
  (((List.range (y - 1970)).map fun i => daysInYear (1970 + i)).sum
    + ((List.range (m - 1)).map fun i => daysInMonth y (i + 1)).sum)
    + (d - 1)

/-- Civil date (year, month, day) of the day `n` days after 1970-01-01, in
the proleptic Gregorian calendar, by the era / day-of-era computation. -/
def civilFromDays (n : Nat) : Nat × Nat × Nat :=
  let z := n + 719468
  let era := z / 146097
  let doe := z % 146097
  let yoe := (doe - doe / 1460 + doe / 36524 - doe / 146096) / 365
  let doy := doe - (365 * yoe + yoe / 4 - yoe / 100)
  let mp := (5 * doy + 2) / 153
  let d := doy - (153 * mp + 2) / 5 + 1
  let m := if mp < 10 then mp + 3 else mp - 9
  let y := yoe + era * 400
  (if m ≤ 2 then y + 1 else y, m, d)

/-- Day of the week of the day `n` days after 1970-01-01 (a Thursday):
0 is Sunday, 6 is Saturday. -/
def weekday (n : Nat) : Nat :=
  (n + 4) % 7

/-- A civil time stamp. -/
structure CivilTime where
  weekday : Nat
  year : Nat
  month : Nat
  day : Nat
  hour : Nat
  minute : Nat
  second : Nat
  deriving DecidableEq, Repr

/-- Civil time of the instant `t` seconds after 1970-01-01T00:00:00Z, on a
clock `offset` seconds ahead of UTC. -/
def civilTime (offset t : Nat) : CivilTime :=
  let l := t + offset
  let n := l / 86400
  let r := l % 86400
  let ymd := civilFromDays n
  { weekday := weekday n, year := ymd.1, month := ymd.2.1, day := ymd.2.2,
    hour := r / 3600, minute := r % 3600 / 60, second := r % 60 }

/-- Seconds from 1970-01-01T00:00:00Z to the civil time `c` read as UTC. -/
def secondsFromCivil (c : CivilTime) : Nat :=
  daysFromCivil c.year c.month c.day * 86400 + c.hour * 3600 + c.minute * 60 + c.second

/-- Value of a decimal digit. -/
def digitValue (c : Char) : Option Nat :=
  if '0' ≤ c ∧ c ≤ '9' then some (c.toNat - '0'.toNat) else none

/-- Value of a non-empty text of decimal digits. -/
def parseDecimal (s : List Char) : Option Nat :=
  if s.isEmpty then none
  else s.foldl (fun acc c => acc.bind fun n => (digitValue c).map fun v => 10 * n + v) (some 0)

/-- Abbreviated weekday names, Sunday first. -/
def weekdayNames : List (List Char) :=
  ["Sun".toList, "Mon".toList, "Tue".toList, "Wed".toList, "Thu".toList, "Fri".toList,
   "Sat".toList]

/-- Abbreviated month names, January first. -/
def monthNames : List (List Char) :=
  ["Jan".toList, "Feb".toList, "Mar".toList, "Apr".toList, "May".toList, "Jun".toList,
   "Jul".toList, "Aug".toList, "Sep".toList, "Oct".toList, "Nov".toList, "Dec".toList]

/-- Read a stamp of the form `Www Mmm d hh:mm:ss yyyy`. -/
def parseStamp (s : List Char) : Option CivilTime :=
  match splitAt ' ' s with
  | [wd, mon, day, clock, year] =>
    match splitAt ':' clock with
    | [hh, mm, ss] => do
      let d ← parseDecimal day
      let y ← parseDecimal year
      let h ← parseDecimal hh
      let mi ← parseDecimal mm
      let sec ← parseDecimal ss
      if weekdayNames.indexOf wd < 7 ∧ monthNames.indexOf mon < 12 then
        some { weekday := weekdayNames.indexOf wd, year := y,
               month := monthNames.indexOf mon + 1, day := d,
               hour := h, minute := mi, second := sec }
      else none
    | _ => none
  | _ => none

/-! # Theorems -/

/-! ## Splitting: general facts -/

theorem splitAt_append_sep (sep : Char) (a r : List Char) (h : sep ∉ a) :
    splitAt sep (a ++ sep :: r) = a :: splitAt sep r := by
  induction a with
  | nil => simp [splitAt]
  | cons c a ih =>
    have hc : c ≠ sep := fun e => h (by simp [e])
    have ha : sep ∉ a := fun e => h (by simp [e])
    simp [splitAt, hc, ih ha]

theorem mem_afterSeparators (sep : Char) (a r : List Char) :
    r ∈ afterSeparators sep (a ++ sep :: r) := by
  induction a with
  | nil => simp [afterSeparators]
  | cons c a ih =>
    by_cases hc : c = sep
    · simp [afterSeparators, hc]
      right
      simpa [hc] using ih
    · simpa [afterSeparators, hc] using ih

theorem capabilities_eq (compat ver : List Char) (a b : Bool) :
    _module_capabilities_ compat ver a b =
      ("VER:".toList ++ compat) ++ ';' ::
        (("ABI:".toList ++ ver) ++ ';' :: capabilityTail a b) := by
  simp [_module_capabilities_, capabilityLines, capabilityTail]

theorem splitAt_capabilities (compat ver : List Char) (a b : Bool)
    (hc : ';' ∉ compat) (hv : ';' ∉ ver) :
    splitAt ';' (_module_capabilities_ compat ver a b) =
      ("VER:".toList ++ compat) :: ("ABI:".toList ++ ver) ::
        splitAt ';' (capabilityTail a b) := by
  rw [capabilities_eq, splitAt_append_sep, splitAt_append_sep]
  · simp [hv]
  · simp [hc]

theorem capabilityFields_eq (compat ver : List Char) (a b : Bool)
    (hc : ';' ∉ compat) (hv : ';' ∉ ver) :
    capabilityFields compat ver a b =
      [ "VER:".toList ++ compat, "ABI:".toList ++ ver, "API:".toList ++ BUILD_API a b,
        "BLD:0".toList, "BLD_NS:__simics_project__".toList, "BUILDDATE:1761377933".toList,
        "MOD:watchdog-timer".toList, "CLS:watchdog_timer".toList, [],
        "HOSTTYPE:linux64".toList, "THREADSAFE".toList, List.replicate 43 ' ' ] := by
  have ht : splitAt ';' (capabilityTail a b) =
      [ "API:".toList ++ BUILD_API a b,
        "BLD:0".toList, "BLD_NS:__simics_project__".toList, "BUILDDATE:1761377933".toList,
        "MOD:watchdog-timer".toList, "CLS:watchdog_timer".toList, [],
        "HOSTTYPE:linux64".toList, "THREADSAFE".toList, List.replicate 43 ' ', [] ] := by
    cases a <;> cases b <;> decide
  simp [capabilityFields, terminatedFields, splitAt_capabilities compat ver a b hc hv, ht]

theorem getLast?_append_of_getLast? (x t : List Char) (c : Char)
    (h : t.getLast? = some c) : (x ++ t).getLast? = some c := by
  simp [List.getLast?_append, h]

theorem endsWith_capabilities (compat ver : List Char) (a b : Bool) :
    endsWith ';' (_module_capabilities_ compat ver a b) = true := by
  have ht : (capabilityTail a b).getLast? = some ';' := by
    cases a <;> cases b <;> decide
  have h : _module_capabilities_ compat ver a b =
      ("VER:".toList ++ compat ++ ';' :: ("ABI:".toList ++ ver ++ [';'])) ++
        capabilityTail a b := by
    rw [capabilities_eq]
    simp
  rw [h, endsWith, getLast?_append_of_getLast? _ _ _ ht]
  rfl

theorem fieldKey_prefix (k v : List Char) (hk : ':' ∉ k) :
    fieldKey (k ++ ':' :: v) = k := by
  induction k with
  | nil => simp [fieldKey]
  | cons c k ih =>
    have hc : c ≠ ':' := fun e => hk (by simp [e])
    have hk2 : ':' ∉ k := fun e => hk (by simp [e])
    have := ih hk2
    simp [fieldKey, hc] at this ⊢
    exact this

theorem keyValue_prefix (k v : List Char) (hk : ':' ∉ k) :
    keyValue (k ++ ':' :: v) = some (k, v) := by
  induction k with
  | nil => simp [keyValue]
  | cons c k ih =>
    have hc : c ≠ ':' := fun e => hk (by simp [e])
    have hk2 : ':' ∉ k := fun e => hk (by simp [e])
    simp [keyValue, hc, ih hk2]

/-- C9: for version texts without `';'` and every selection of the API
flags, `_module_capabilities_` ends with `';'` and is its twelve fields each
followed by `';'`, in the order VER, ABI, API, BLD, BLD_NS, BUILDDATE, MOD,
CLS, an empty field, HOSTTYPE, THREADSAFE and a padding of 43 spaces; exactly
the empty field, THREADSAFE and the padding contain no `':'`; the keys of the
twelve fields are pairwise different, so two fields with the same key are the
same field. -/
theorem C9_twelve_fields_in_order (compat ver : List Char) (a b : Bool)
    (hc : ';' ∉ compat) (hv : ';' ∉ ver) :
    endsWith ';' (_module_capabilities_ compat ver a b) = true
    ∧ _module_capabilities_ compat ver a b =
        ((capabilityFields compat ver a b).map fun f => f ++ [';']).flatten
    ∧ (capabilityFields compat ver a b).length = 12
    ∧ capabilityFields compat ver a b =
        [ "VER:".toList ++ compat, "ABI:".toList ++ ver, "API:".toList ++ BUILD_API a b,
          "BLD:0".toList, "BLD_NS:__simics_project__".toList,
          "BUILDDATE:1761377933".toList, "MOD:watchdog-timer".toList,
          "CLS:watchdog_timer".toList, [], "HOSTTYPE:linux64".toList,
          "THREADSAFE".toList, List.replicate 43 ' ' ]
    ∧ (capabilityFields compat ver a b).map fieldKey =
        [ "VER".toList, "ABI".toList, "API".toList, "BLD".toList, "BLD_NS".toList,
          "BUILDDATE".toList, "MOD".toList, "CLS".toList, [], "HOSTTYPE".toList,
          "THREADSAFE".toList, List.replicate 43 ' ' ]
    ∧ (capabilityFields compat ver a b).filter (fun f => decide (':' ∉ f)) =
        [ [], "THREADSAFE".toList, List.replicate 43 ' ' ]
    ∧ ((capabilityFields compat ver a b).map fieldKey).Nodup
    ∧ ∀ f ∈ capabilityFields compat ver a b, ∀ g ∈ capabilityFields compat ver a b,
        fieldKey f = fieldKey g → f = g := by
  have hf := capabilityFields_eq compat ver a b hc hv
  have hkeys : (capabilityFields compat ver a b).map fieldKey =
        [ "VER".toList, "ABI".toList, "API".toList, "BLD".toList, "BLD_NS".toList,
          "BUILDDATE".toList, "MOD".toList, "CLS".toList, [], "HOSTTYPE".toList,
          "THREADSAFE".toList, List.replicate 43 ' ' ] := by
    rw [hf]
    have h1 : fieldKey ("VER:".toList ++ compat) = "VER".toList :=
      fieldKey_prefix "VER".toList compat (by decide)
    have h2 : fieldKey ("ABI:".toList ++ ver) = "ABI".toList :=
      fieldKey_prefix "ABI".toList ver (by decide)
    have h3 : fieldKey ("API:".toList ++ BUILD_API a b) = "API".toList :=
      fieldKey_prefix "API".toList (BUILD_API a b) (by decide)
    simp only [List.map, h1, h2, h3]
    decide
  have hnodup : ((capabilityFields compat ver a b).map fieldKey).Nodup := by
    rw [hkeys]
    decide
  refine ⟨endsWith_capabilities compat ver a b, ?_, ?_, hf, hkeys, ?_, hnodup, ?_⟩
  · rw [hf, capabilities_eq]
    cases a <;> cases b <;> simp [capabilityTail, capabilityLines, BUILD_API, EXTRA, BUILDDATE]
  · rw [hf]
    rfl
  · rw [hf]
    simp [List.filter]
  · intro f hfm g hgm hk
    exact List.inj_on_of_nodup_map hnodup hfm hgm hk

theorem afterSeparators_append (sep : Char) (a r t : List Char)
    (h : t ∈ afterSeparators sep r) : t ∈ afterSeparators sep (a ++ r) := by
  induction a with
  | nil => simpa using h
  | cons c a ih =>
    by_cases hc : c = sep
    · simp only [List.cons_append, afterSeparators, hc, if_true]
      exact List.mem_cons_of_mem _ ih
    · simpa [afterSeparators, hc] using ih

theorem declaresField_head (f r : List Char) :
    declaresField (f ++ ';' :: r) f = true := by
  have h : (f ++ [';']).isPrefixOf (f ++ ';' :: r) = true := by
    rw [List.isPrefixOf_iff_prefix]
    exact ⟨r, by simp⟩
  simp [declaresField, h]

theorem declaresField_after (x f r : List Char) :
    declaresField (x ++ ';' :: (f ++ ';' :: r)) f = true := by
  have h : (f ++ [';']).isPrefixOf (f ++ ';' :: r) = true := by
    rw [List.isPrefixOf_iff_prefix]
    exact ⟨r, by simp⟩
  have hm := mem_afterSeparators ';' x (f ++ ';' :: r)
  simp only [declaresField, List.any_cons, Bool.or_eq_true, List.any_eq_true]
  exact Or.inr ⟨_, hm, h⟩

theorem declaresField_append (x r f : List Char)
    (h : (afterSeparators ';' r).any (fun t => (f ++ [';']).isPrefixOf t) = true) :
    declaresField (x ++ r) f = true := by
  simp only [List.any_eq_true] at h
  obtain ⟨t, ht, hp⟩ := h
  simp only [declaresField, List.any_cons, Bool.or_eq_true, List.any_eq_true]
  exact Or.inr ⟨t, afterSeparators_append ';' x r t ht, hp⟩

/-- C3: for every value of the version macros and of the API flags,
`_module_capabilities_` contains, each standing at a field boundary and
followed by `';'`: the version field `VER:<SIM_VERSION_COMPAT>`, the ABI
field `ABI:<SIM_VERSION>`, the build date `BUILDDATE:1761377933`, the module
name `MOD:watchdog-timer`, the class name `CLS:watchdog_timer`, the host type
`HOSTTYPE:linux64` and the flag `THREADSAFE`. -/
theorem C3_declares_listed_items (compat ver : List Char) (a b : Bool) :
    declaresField (_module_capabilities_ compat ver a b) ("VER:".toList ++ compat) = true
    ∧ declaresField (_module_capabilities_ compat ver a b) ("ABI:".toList ++ ver) = true
    ∧ declaresField (_module_capabilities_ compat ver a b)
        "BUILDDATE:1761377933".toList = true
    ∧ declaresField (_module_capabilities_ compat ver a b) "MOD:watchdog-timer".toList = true
    ∧ declaresField (_module_capabilities_ compat ver a b) "CLS:watchdog_timer".toList = true
    ∧ declaresField (_module_capabilities_ compat ver a b) "HOSTTYPE:linux64".toList = true
    ∧ declaresField (_module_capabilities_ compat ver a b) "THREADSAFE".toList = true := by
  have h : _module_capabilities_ compat ver a b =
      ("VER:".toList ++ compat ++ ';' :: ("ABI:".toList ++ ver ++ [';'])) ++
        capabilityTail a b := by
    rw [capabilities_eq]
    simp
  refine ⟨?_, ?_, ?_, ?_, ?_, ?_, ?_⟩
  · rw [capabilities_eq]
    exact declaresField_head _ _
  · rw [capabilities_eq]
    exact declaresField_after _ _ _
  all_goals
    rw [h]
    apply declaresField_append
    cases a <;> cases b <;> decide

theorem apiField_eq (compat ver : List Char) (a b : Bool)
    (hc : ';' ∉ compat) (hv : ';' ∉ ver) :
    apiField compat ver a b = some ("API:".toList ++ BUILD_API a b) := by
  have h1 : fieldKey ("VER:".toList ++ compat) = "VER".toList :=
    fieldKey_prefix "VER".toList compat (by decide)
  have h2 : fieldKey ("ABI:".toList ++ ver) = "ABI".toList :=
    fieldKey_prefix "ABI".toList ver (by decide)
  have h3 : fieldKey ("API:".toList ++ BUILD_API a b) = "API".toList :=
    fieldKey_prefix "API".toList (BUILD_API a b) (by decide)
  rw [apiField, capabilityFields_eq compat ver a b hc hv]
  simp only [List.find?, h1, h2, h3]
  rfl

/-- C8: the API field of `_module_capabilities_` follows the build flags with
`SIMICS_7_API` first. For every combination of the two flags the field
`API:<BUILD_API>` stands in the descriptor at a field boundary; it is `API:7`
when `SIMICS_7_API` is defined, whatever `SIMICS_6_API` is, `API:6` when only
`SIMICS_6_API` is defined and `API:?` when neither is; the three texts are
pairwise different and the field takes no other value; and for version texts
without `';'` it is the field a lookup of the key `API` finds. -/
theorem C8_api_field_by_flags (compat ver : List Char) (a b : Bool) :
    declaresField (_module_capabilities_ compat ver a b)
        ("API:".toList ++ BUILD_API a b) = true
    ∧ (a = true → "API:".toList ++ BUILD_API a b = "API:7".toList)
    ∧ (a = false → b = true → "API:".toList ++ BUILD_API a b = "API:6".toList)
    ∧ (a = false → b = false → "API:".toList ++ BUILD_API a b = "API:?".toList)
    ∧ ("API:".toList ++ BUILD_API true b ≠ "API:".toList ++ BUILD_API false true
        ∧ "API:".toList ++ BUILD_API true b ≠ "API:".toList ++ BUILD_API false false
        ∧ "API:".toList ++ BUILD_API false true ≠ "API:".toList ++ BUILD_API false false)
    ∧ "API:".toList ++ BUILD_API a b ∈
        ["API:7".toList, "API:6".toList, "API:?".toList]
    ∧ (';' ∉ compat → ';' ∉ ver →
        apiField compat ver a b = some ("API:".toList ++ BUILD_API a b)) := by
  refine ⟨?_, ?_, ?_, ?_, ?_, ?_, fun hc hv => apiField_eq compat ver a b hc hv⟩
  · have h : _module_capabilities_ compat ver a b =
        ("VER:".toList ++ compat ++ ';' :: ("ABI:".toList ++ ver)) ++ ';' ::
          (("API:".toList ++ BUILD_API a b) ++ ';' ::
            ((capabilityLines [] [] a b).drop 3).flatten) := by
      simp [_module_capabilities_, capabilityLines]
    rw [h]
    exact declaresField_after _ _ _
  all_goals cases a <;> cases b <;> decide

/-- C1, counterexample: with `SIM_VERSION_COMPAT` 7000, `SIM_VERSION` 7012 and
`SIMICS_7_API` defined, it is not the case that every field is a key:value
pair and that the keys are exactly the nine listed ones: the fields
`THREADSAFE`, the empty field and the padding have no `':'`, and the key
`BUILDDATE` is present without being listed. -/
theorem C1_counterexample :
    ¬ ((∀ f ∈ capabilityFields "7000".toList "7012".toList true false,
          (keyValue f).isSome = true)
        ∧ (∀ k, k ∈ (capabilityFields "7000".toList "7012".toList true false).map fieldKey
            ↔ k ∈ listedKeys))
    ∧ "THREADSAFE".toList ∈ bareFields "7000".toList "7012".toList true false
    ∧ "BUILDDATE".toList ∈
        (capabilityPairs "7000".toList "7012".toList true false).map Prod.fst
    ∧ "BUILDDATE".toList ∉ listedKeys := by
  refine ⟨?_, by decide, by decide, by decide⟩
  rintro ⟨h, _⟩
  have := h "THREADSAFE".toList (by decide)
  revert this
  decide

/-- C1, amended: for version texts without `';'` and `':'` and every
selection of the API flags, the fields of `_module_capabilities_` that contain
a `':'` are nine key:value pairs, in order VER, ABI, API, BLD, BLD_NS,
BUILDDATE, MOD, CLS, HOSTTYPE with the values of the source, so the set of
keys of the pairs is exactly these nine; the three remaining fields, the
empty one, the bare flag THREADSAFE and the padding of 43 spaces, are not
key:value pairs. -/
theorem C1_pairs_and_bare_fields (compat ver : List Char) (a b : Bool)
    (hc : ';' ∉ compat) (hv : ';' ∉ ver) (_hc2 : ':' ∉ compat) (_hv2 : ':' ∉ ver) :
    capabilityPairs compat ver a b =
        [ ("VER".toList, compat), ("ABI".toList, ver), ("API".toList, BUILD_API a b),
          ("BLD".toList, "0".toList), ("BLD_NS".toList, "__simics_project__".toList),
          ("BUILDDATE".toList, "1761377933".toList),
          ("MOD".toList, "watchdog-timer".toList), ("CLS".toList, "watchdog_timer".toList),
          ("HOSTTYPE".toList, "linux64".toList) ]
    ∧ (∀ k, k ∈ (capabilityPairs compat ver a b).map Prod.fst ↔
        k ∈ [ "VER".toList, "ABI".toList, "API".toList, "BLD".toList, "BLD_NS".toList,
              "BUILDDATE".toList, "MOD".toList, "CLS".toList, "HOSTTYPE".toList ])
    ∧ bareFields compat ver a b = [ [], "THREADSAFE".toList, List.replicate 43 ' ' ] := by
  have h1 : keyValue ("VER:".toList ++ compat) = some ("VER".toList, compat) :=
    keyValue_prefix "VER".toList compat (by decide)
  have h2 : keyValue ("ABI:".toList ++ ver) = some ("ABI".toList, ver) :=
    keyValue_prefix "ABI".toList ver (by decide)
  have h3 : keyValue ("API:".toList ++ BUILD_API a b) = some ("API".toList, BUILD_API a b) :=
    keyValue_prefix "API".toList (BUILD_API a b) (by decide)
  have hp : capabilityPairs compat ver a b =
        [ ("VER".toList, compat), ("ABI".toList, ver), ("API".toList, BUILD_API a b),
          ("BLD".toList, "0".toList), ("BLD_NS".toList, "__simics_project__".toList),
          ("BUILDDATE".toList, "1761377933".toList),
          ("MOD".toList, "watchdog-timer".toList), ("CLS".toList, "watchdog_timer".toList),
          ("HOSTTYPE".toList, "linux64".toList) ] := by
    rw [capabilityPairs, capabilityFields_eq compat ver a b hc hv]
    simp only [List.filterMap, h1, h2, h3]
    rfl
  refine ⟨hp, ?_, ?_⟩
  · intro k
    rw [hp]
    simp
  · rw [bareFields, capabilityFields_eq compat ver a b hc hv]
    simp only [List.filter, h1, h2, h3]
    rfl

/-- C1, amended, at the versions 7000 and 7012 with `SIMICS_7_API` defined. -/
theorem C1_pairs_and_bare_fields_witness :
    capabilityPairs "7000".toList "7012".toList true false =
        [ ("VER".toList, "7000".toList), ("ABI".toList, "7012".toList),
          ("API".toList, BUILD_API true false),
          ("BLD".toList, "0".toList), ("BLD_NS".toList, "__simics_project__".toList),
          ("BUILDDATE".toList, "1761377933".toList),
          ("MOD".toList, "watchdog-timer".toList), ("CLS".toList, "watchdog_timer".toList),
          ("HOSTTYPE".toList, "linux64".toList) ]
    ∧ (∀ k, k ∈ (capabilityPairs "7000".toList "7012".toList true false).map Prod.fst ↔
        k ∈ [ "VER".toList, "ABI".toList, "API".toList, "BLD".toList, "BLD_NS".toList,
              "BUILDDATE".toList, "MOD".toList, "CLS".toList, "HOSTTYPE".toList ])
    ∧ bareFields "7000".toList "7012".toList true false =
        [ [], "THREADSAFE".toList, List.replicate 43 ' ' ] :=
  C1_pairs_and_bare_fields "7000".toList "7012".toList true false
    (by decide) (by decide) (by decide) (by decide)

/-- C9 at the versions 7000 and 7012 with `SIMICS_7_API` defined: neither
text has a `';'`, and the descriptor has twelve fields whose keys are pairwise
different. -/
theorem C9_twelve_fields_in_order_witness :
    ';' ∉ "7000".toList ∧ ';' ∉ "7012".toList
    ∧ (capabilityFields "7000".toList "7012".toList true false).length = 12
    ∧ ((capabilityFields "7000".toList "7012".toList true false).map fieldKey).Nodup :=
  ⟨by decide, by decide,
    (C9_twelve_fields_in_order "7000".toList "7012".toList true false
      (by decide) (by decide)).2.2.1,
    (C9_twelve_fields_in_order "7000".toList "7012".toList true false
      (by decide) (by decide)).2.2.2.2.2.2.1⟩

/-- C8 at the versions 7000 and 7012 with both flags defined: neither text
has a `';'`, the field is `API:7` and a lookup of the key `API` finds it. -/
theorem C8_api_field_by_flags_witness :
    ';' ∉ "7000".toList ∧ ';' ∉ "7012".toList ∧ true = true
    ∧ "API:".toList ++ BUILD_API true true = "API:7".toList
    ∧ apiField "7000".toList "7012".toList true true =
        some ("API:".toList ++ BUILD_API true true) :=
  ⟨by decide, by decide, rfl,
    (C8_api_field_by_flags "7000".toList "7012".toList true true).2.1 rfl,
    (C8_api_field_by_flags "7000".toList "7012".toList true true).2.2.2.2.2.2
      (by decide) (by decide)⟩

/-! ## The initialization entry point -/

theorem simics_module_init_run {σ : Type} (ext : σ → Option σ) (c : Config σ) :
    (_simics_module_init ext).run c =
      (ext c.machine.world).map fun w =>
        ((), { machine := { c.machine with world := w },
               calls := c.calls ++ [Fn._initialize_watchdog_timer_dml, Fn.init_local] }) := by
  cases h : ext c.machine.world <;>
    simp [_simics_module_init, simics_module_init_body, call, callee, enter,
      _initialize_watchdog_timer_dml, init_local,
      StateT.run, bind, StateT.bind, modify, modifyGet, MonadStateOf.modifyGet,
      StateT.modifyGet, pure, StateT.pure, h]

theorem call_initializer_run {σ : Type} (ext : σ → Option σ) (c : Config σ) :
    (call ext Fn._initialize_watchdog_timer_dml).run c =
      (ext c.machine.world).map fun w =>
        ((), { machine := { c.machine with world := w },
               calls := c.calls ++ [Fn._initialize_watchdog_timer_dml] }) := by
  cases h : ext c.machine.world <;>
    simp [call, callee, enter, _initialize_watchdog_timer_dml,
      StateT.run, bind, StateT.bind, modify, modifyGet, MonadStateOf.modifyGet,
      StateT.modifyGet, pure, StateT.pure, h]

theorem call_init_local_run {σ : Type} (ext : σ → Option σ) (c : Config σ) :
    (call ext Fn.init_local).run c =
      some ((), { c with calls := c.calls ++ [Fn.init_local] }) :=
  rfl

theorem simics_module_init_traced_eq {σ : Type} (ext : σ → Option σ) (c : Config σ) :
    simics_module_init_traced ext c =
      match ext c.machine.world with
      | some w =>
        (some (), { machine := { c.machine with world := w },
                    calls := c.calls ++ [Fn._initialize_watchdog_timer_dml, Fn.init_local] })
      | none =>
        (none, { c with calls := c.calls ++ [Fn._initialize_watchdog_timer_dml] }) := by
  have h2 : ∀ c2 : Config σ, call ext Fn.init_local c2 =
      some ((), { c2 with calls := c2.calls ++ [Fn.init_local] }) := fun _ => rfl
  cases h : ext c.machine.world with
  | none =>
    have h1 : call ext Fn._initialize_watchdog_timer_dml c = none := by
      simpa [StateT.run, h] using call_initializer_run ext c
    simp [simics_module_init_traced, simics_module_init_body, callTraced, h1,
      OptionT.run, OptionT.mk, bind, OptionT.bind, StateT.run, StateT.bind, pure,
      StateT.pure]
  | some w =>
    have h1 : call ext Fn._initialize_watchdog_timer_dml c =
        some ((), { machine := { c.machine with world := w },
                    calls := c.calls ++ [Fn._initialize_watchdog_timer_dml] }) := by
      simpa [StateT.run, h] using call_initializer_run ext c
    simp [simics_module_init_traced, simics_module_init_body, callTraced, h1, h2,
      OptionT.run, OptionT.mk, bind, OptionT.bind, StateT.run, StateT.bind, pure,
      StateT.pure]

theorem init_local_run {σ : Type} (c : Config σ) :
    (init_local : Exec σ Unit).run c = some ((), c) :=
  rfl

/-- C2, counterexample: with an external initializer that never returns, on
the loaded module, one call of `_simics_module_init` does not make the two
calls: it does not return, no log `[_initialize_watchdog_timer_dml,
init_local]` is reached, and the run stops with the single call of
`_initialize_watchdog_timer_dml` recorded, `init_local` not being called. -/
theorem C2_counterexample :
    ¬ (((_simics_module_init (neverReturns : Nat → Option Nat)).run
          (load "7000".toList "7012".toList true false 0)).map (fun r => r.2.calls) =
        some [Fn._initialize_watchdog_timer_dml, Fn.init_local])
    ∧ ¬ ((simics_module_init_traced (neverReturns : Nat → Option Nat)
          (load "7000".toList "7012".toList true false 0)).2.calls =
        [Fn._initialize_watchdog_timer_dml, Fn.init_local])
    ∧ (simics_module_init_traced (neverReturns : Nat → Option Nat)
          (load "7000".toList "7012".toList true false 0)).1 = none
    ∧ (simics_module_init_traced (neverReturns : Nat → Option Nat)
          (load "7000".toList "7012".toList true false 0)).2.calls =
        [Fn._initialize_watchdog_timer_dml] := by
  refine ⟨?_, ?_, ?_, ?_⟩
  · rw [simics_module_init_run]
    intro h
    exact Option.noConfusion h
  · rw [simics_module_init_traced_eq]
    decide
  · rw [simics_module_init_traced_eq]
    rfl
  · rw [simics_module_init_traced_eq]
    rfl

/-- C2, amended: for every behaviour of the external initializer and every
starting configuration, when the external initializer returns, one call of
`_simics_module_init` returns and has made exactly two calls, first
`_initialize_watchdog_timer_dml`, then `init_local`, and nothing else: the
log grows by `[_initialize_watchdog_timer_dml, init_local]`, the world is the
one the initializer returned and the arrays are as before; when the external
initializer does not return, `_simics_module_init` does not return and the
log grows by `[_initialize_watchdog_timer_dml]` alone. In particular the two
calls are made for every state transformer taken for the initializer. -/
theorem C2_call_trace {σ : Type} (ext : σ → Option σ) (c : Config σ) :
    (∀ w, ext c.machine.world = some w →
        simics_module_init_traced ext c =
          (some (), { machine := { c.machine with world := w },
                      calls := c.calls ++
                        [Fn._initialize_watchdog_timer_dml, Fn.init_local] })
        ∧ (_simics_module_init ext).run c =
          some ((), { machine := { c.machine with world := w },
                      calls := c.calls ++
                        [Fn._initialize_watchdog_timer_dml, Fn.init_local] }))
    ∧ (ext c.machine.world = none →
        simics_module_init_traced ext c =
          (none, { c with calls := c.calls ++ [Fn._initialize_watchdog_timer_dml] })
        ∧ (_simics_module_init ext).run c = none)
    ∧ (∀ f : σ → σ,
        simics_module_init_traced (returning f) c =
          (some (), { machine := { c.machine with world := f c.machine.world },
                      calls := c.calls ++
                        [Fn._initialize_watchdog_timer_dml, Fn.init_local] })) := by
  refine ⟨?_, ?_, ?_⟩
  · intro w h
    rw [simics_module_init_traced_eq, simics_module_init_run, h]
    exact ⟨rfl, rfl⟩
  · intro h
    rw [simics_module_init_traced_eq, simics_module_init_run, h]
    exact ⟨rfl, rfl⟩
  · intro f
    rw [simics_module_init_traced_eq]
    rfl

/-- C2, amended, at an initializer that adds one to a counter, on the loaded
module with counter 0: the initializer returns 1, and `_simics_module_init`
returns with the log `[_initialize_watchdog_timer_dml, init_local]`, the
counter at 1 and the arrays as loaded. -/
theorem C2_call_trace_witness :
    returning (fun n : Nat => n + 1)
        (load "7000".toList "7012".toList true false (0 : Nat)).machine.world = some 1
    ∧ simics_module_init_traced (returning fun n : Nat => n + 1)
        (load "7000".toList "7012".toList true false (0 : Nat)) =
      (some (), { machine :=
                    { capabilities := _module_capabilities_ "7000".toList "7012".toList
                        true false
                      date := _module_date
                      world := 1 }
                  calls := [Fn._initialize_watchdog_timer_dml, Fn.init_local] }) :=
  ⟨rfl,
   ((C2_call_trace (returning fun n : Nat => n + 1)
      (load "7000".toList "7012".toList true false (0 : Nat))).1 1 rfl).1⟩

/-- C5: `_simics_module_init` has no failure path of its own: whenever the
external initializer returns from the starting state, `_simics_module_init`
returns the unit value, with the world the initializer left; it fails to
return only when the external initializer does; and `init_local` always
returns. -/
theorem C5_no_failure_path {σ : Type} (ext : σ → Option σ) (c : Config σ) :
    (∀ w, ext c.machine.world = some w →
        (_simics_module_init ext).run c =
          some ((), { machine := { c.machine with world := w },
                      calls := c.calls ++
                        [Fn._initialize_watchdog_timer_dml, Fn.init_local] }))
    ∧ ((_simics_module_init ext).run c = none ↔ ext c.machine.world = none)
    ∧ (init_local : Exec σ Unit).run c = some ((), c) := by
  refine ⟨?_, ?_, rfl⟩
  · intro w h
    rw [simics_module_init_run, h]
    rfl
  · rw [simics_module_init_run]
    cases ext c.machine.world with
    | none => exact ⟨fun _ => rfl, fun _ => rfl⟩
    | some w => exact ⟨fun h => Option.noConfusion h, fun h => Option.noConfusion h⟩

/-- C5 at an initializer that adds one to a counter, from the loaded module
with counter 0: the initializer returns 1 and `_simics_module_init` returns
with the counter at 1. -/
theorem C5_no_failure_path_witness :
    returning (fun n : Nat => n + 1)
        (load "7000".toList "7012".toList true false (0 : Nat)).machine.world = some 1
    ∧ ((_simics_module_init (returning fun n : Nat => n + 1)).run
        (load "7000".toList "7012".toList true false (0 : Nat))).map
          (fun r => r.2.machine.world) = some 1 :=
  ⟨rfl, by
    rw [(C5_no_failure_path (returning fun n : Nat => n + 1)
      (load "7000".toList "7012".toList true false (0 : Nat))).1 1 rfl]
    rfl⟩

/-- C7: `init_local` maps every configuration to itself, and for every state
transformer standing for `_initialize_watchdog_timer_dml` the machine after
`_simics_module_init` is the machine after one call of
`_initialize_watchdog_timer_dml`: the two arrays unchanged and the world
transformed once. -/
theorem C7_init_is_initializer_alone {σ : Type} (f : σ → σ) (c : Config σ) :
    ((_simics_module_init (returning f)).run c).map (fun r => r.2.machine) =
      ((_initialize_watchdog_timer_dml (returning f)).run c).map (fun r => r.2.machine)
    ∧ ((_simics_module_init (returning f)).run c).map (fun r => r.2.machine) =
      some { c.machine with world := f c.machine.world }
    ∧ (init_local : Exec σ Unit).run c = some ((), c) := by
  refine ⟨?_, ?_, rfl⟩
  · rw [simics_module_init_run]
    rfl
  · rw [simics_module_init_run]
    rfl

theorem runCalls_cons_run {σ : Type} (ext : σ → Option σ) (e : Entry) (es : List Entry)
    (c : Config σ) :
    (runCalls ext (e :: es)).run c =
      ((e.run ext).run c).bind fun r => (runCalls ext es).run r.2 :=
  rfl

theorem entry_run_frame {σ : Type} (ext : σ → Option σ) (e : Entry) (c : Config σ)
    (r : Unit × Config σ) (h : (e.run ext).run c = some r) :
    r.2.machine.capabilities = c.machine.capabilities
    ∧ r.2.machine.date = c.machine.date := by
  cases e with
  | _simics_module_init =>
    simp only [Entry.run] at h
    rw [simics_module_init_run] at h
    cases hw : ext c.machine.world with
    | none => rw [hw] at h; exact Option.noConfusion h
    | some w =>
      rw [hw] at h
      have h2 := Option.some.inj h
      rw [← h2]
      exact ⟨rfl, rfl⟩
  | init_local =>
    have h2 : ((), c) = r := Option.some.inj h
    rw [← h2]
    exact ⟨rfl, rfl⟩

theorem entry_run_returns {σ : Type} (ext : σ → Option σ) (hx : ∀ w, (ext w).isSome = true)
    (e : Entry) (c : Config σ) : ((e.run ext).run c).isSome = true := by
  cases e with
  | _simics_module_init =>
    simp only [Entry.run]
    rw [simics_module_init_run]
    have := hx c.machine.world
    cases hw : ext c.machine.world with
    | none => rw [hw] at this; exact this
    | some w => rfl
  | init_local => rfl

theorem runCalls_frame {σ : Type} (ext : σ → Option σ) (es : List Entry) :
    ∀ (c : Config σ) (r : Unit × Config σ), (runCalls ext es).run c = some r →
      r.2.machine.capabilities = c.machine.capabilities
      ∧ r.2.machine.date = c.machine.date := by
  induction es with
  | nil =>
    intro c r h
    have h2 : ((), c) = r := Option.some.inj h
    rw [← h2]
    exact ⟨rfl, rfl⟩
  | cons e es ih =>
    intro c r h
    rw [runCalls_cons_run] at h
    cases h1 : (e.run ext).run c with
    | none => rw [h1] at h; exact Option.noConfusion h
    | some r1 =>
      rw [h1] at h
      have hf := entry_run_frame ext e c r1 h1
      have hr := ih r1.2 r h
      exact ⟨hr.1.trans hf.1, hr.2.trans hf.2⟩

theorem runCalls_returns {σ : Type} (ext : σ → Option σ) (hx : ∀ w, (ext w).isSome = true)
    (es : List Entry) : ∀ c : Config σ, ((runCalls ext es).run c).isSome = true := by
  induction es with
  | nil => intro c; rfl
  | cons e es ih =>
    intro c
    rw [runCalls_cons_run]
    have h1 := entry_run_returns ext hx e c
    cases h2 : (e.run ext).run c with
    | none => rw [h2] at h1; exact Bool.noConfusion h1
    | some r1 => exact ih r1.2

/-- C6: the two arrays are never written: for every behaviour of the external
initializer on its own state, every starting configuration and every sequence
of calls of `_simics_module_init` and `init_local`, the contents of
`_module_capabilities_` and of `_module_date` after the calls are their
contents before; and when the external initializer always returns, so does
the whole sequence. -/
theorem C6_arrays_never_written {σ : Type} (ext : σ → Option σ) (es : List Entry)
    (c : Config σ) :
    (∀ c2 : Config σ, (runCalls ext es).run c = some ((), c2) →
        c2.machine.capabilities = c.machine.capabilities
        ∧ c2.machine.date = c.machine.date)
    ∧ ((∀ w, (ext w).isSome = true) → ((runCalls ext es).run c).isSome = true) :=
  ⟨fun c2 h => runCalls_frame ext es c ((), c2) h,
   fun hx => runCalls_returns ext hx es c⟩

/-- C6 at three calls (`_simics_module_init`, `init_local`,
`_simics_module_init`) on the loaded module, with an initializer that adds
one to a counter: the initializer always returns, the calls return, the
counter is 2 and the two arrays hold their initializers. -/
theorem C6_arrays_never_written_witness :
    (∀ w : Nat, ((returning fun n : Nat => n + 1) w).isSome = true)
    ∧ (runCalls (returning fun n : Nat => n + 1)
        [Entry._simics_module_init, Entry.init_local, Entry._simics_module_init]).run
        (load "7000".toList "7012".toList true false (0 : Nat)) =
      some ((), { machine :=
                    { capabilities := _module_capabilities_ "7000".toList "7012".toList
                        true false
                      date := _module_date
                      world := 2 }
                  calls := [Fn._initialize_watchdog_timer_dml, Fn.init_local,
                            Fn._initialize_watchdog_timer_dml, Fn.init_local] })
    ∧ (_module_capabilities_ "7000".toList "7012".toList true false =
        (load "7000".toList "7012".toList true false (0 : Nat)).machine.capabilities
      ∧ _module_date =
        (load "7000".toList "7012".toList true false (0 : Nat)).machine.date)
    ∧ ((runCalls (returning fun n : Nat => n + 1)
        [Entry._simics_module_init, Entry.init_local, Entry._simics_module_init]).run
        (load "7000".toList "7012".toList true false (0 : Nat))).isSome = true :=
  ⟨fun _ => rfl, rfl,
   (C6_arrays_never_written (returning fun n : Nat => n + 1)
      [Entry._simics_module_init, Entry.init_local, Entry._simics_module_init]
      (load "7000".toList "7012".toList true false (0 : Nat))).1 _ rfl,
   (C6_arrays_never_written (returning fun n : Nat => n + 1)
      [Entry._simics_module_init, Entry.init_local, Entry._simics_module_init]
      (load "7000".toList "7012".toList true false (0 : Nat))).2 (fun _ => rfl)⟩

/-! ## The declarations -/

/-- C4, counterexample: it is not the case that the exported symbols are just
`_module_capabilities_` and `_simics_module_init`, that `init_local` has
internal linkage and that nothing else is defined with external linkage:
`_module_date` is declared `EXPORTED` too, and `init_local` is defined with
the `extern` specifier. -/
theorem C4_counterexample :
    ¬ (exportedSymbols declarations = ["_module_capabilities_", "_simics_module_init"]
        ∧ linkageOf declarations "init_local" = Linkage.internal
        ∧ ∀ n ∈ externallyLinkedDefinitions declarations,
            n ∈ ["_module_capabilities_", "_simics_module_init"])
    ∧ "_module_date" ∈ exportedSymbols declarations
    ∧ linkageOf declarations "init_local" = Linkage.external := by
  decide

/-- C4, amended: the unit declares exactly three symbols `EXPORTED`, the
arrays `_module_capabilities_` and `_module_date` and the function
`_simics_module_init`; it defines exactly four symbols, these three and the
hook `init_local`, all with external linkage and none with internal linkage;
`init_local` is the one function with an empty body and is not `EXPORTED`. -/
theorem C4_exported_and_defined_symbols :
    exportedSymbols declarations =
        ["_module_capabilities_", "_module_date", "_simics_module_init"]
    ∧ externallyLinkedDefinitions declarations =
        ["_module_capabilities_", "_module_date", "init_local", "_simics_module_init"]
    ∧ internalDefinitions declarations = []
    ∧ emptyHooks declarations = ["init_local"]
    ∧ "init_local" ∉ exportedSymbols declarations := by
  decide

/-! ## The two build stamps -/

/-- C10: the two build stamps are the same instant on a clock eight hours
ahead of UTC: `BUILDDATE` reads 1761377933, which is day 20386 after
1970-01-01 plus 27533 seconds; at offset +08:00 that instant is Saturday 25
October 2025, 15:38:53, which is what `_module_date` says; and `_module_date`
read as UTC is 28800 seconds after `BUILDDATE`. -/
theorem C10_build_stamps_agree :
    parseDecimal BUILDDATE = some 1761377933
    ∧ civilTime 28800 1761377933 =
        { weekday := 6, year := 2025, month := 10, day := 25,
          hour := 15, minute := 38, second := 53 }
    ∧ parseStamp _module_date =
        some { weekday := 6, year := 2025, month := 10, day := 25,
               hour := 15, minute := 38, second := 53 }
    ∧ (parseDecimal BUILDDATE).map (civilTime 28800) = parseStamp _module_date
    ∧ weekdayNames.get? 6 = some "Sat".toList
    ∧ monthNames.get? (10 - 1) = some "Oct".toList
    ∧ civilFromDays (daysFromCivil 2025 10 25) = (2025, 10, 25)
    ∧ (parseStamp _module_date).map secondsFromCivil = some (1761377933 + 28800)
    ∧ (parseStamp _module_date).map (fun c => secondsFromCivil c - 1761377933) =
        some 28800
    ∧ (parseDecimal BUILDDATE).map (civilTime 0) ≠ parseStamp _module_date := by
  decide

end WatchdogModuleId
